import Mathlib

/-!
# Verification of `src/script.js` (fragranceforecast)

A shallow embedding of the single-flow client application in `src/script.js`:
the WMO weather-code lookup (`getWeatherDescription`), the three HTTP clients
(`getWeatherData`, `getCityName`, `getFragranceFromAI`), the four UI-update
functions (`showLoading`, `hideLoading`, `showError`, `updateUI`) and the
click-handler flow that orchestrates them.

Browser/platform behaviour that the script merely consumes is modelled
explicitly:
  * a `fetch` call is represented by its settled outcome (`FetchResult`):
    either a rejected promise (network error) or a resolved `Response` with
    its `ok` flag, `status`, and already-JSON-decoded `body` (no claim
    exercises a `response.json()` failure, so the body is carried decoded);
  * JavaScript string truthiness (`a || b`, where `undefined` and `""` are
    falsy) is `jsTruthyOr`;
  * `Math.round x` is `⌊x + 1/2⌋` on rationals (`jsRound`), which is JS's
    round-half-up behaviour;
  * reading a property of `undefined` throws a `TypeError`; the places where
    the script can do that (`data.address.city` when `address` is absent,
    `candidates[0].content.parts[0].text` when `content` or `parts[0]` is
    absent) are modelled as errors carrying the corresponding TypeError
    message;
  * `JSON.parse` on the AI candidate text is platform code, so the text is
    represented by the outcome parsing it would produce (`JsonText`).
-/

namespace FragranceForecast

/-- JavaScript `v || default` for a string-or-undefined value `v`:
`undefined` and the empty string are falsy. -/
def jsTruthyOr (v : Option String) (dflt : String) : String :=
  match v with
  | none => dflt
  | some s => if s = "" then dflt else s

/-- JavaScript `Math.round`: round half toward positive infinity,
`Math.round x = ⌊x + 0.5⌋`. -/
def jsRound (q : ℚ) : ℤ := ⌊q + 1/2⌋

/-- A JavaScript exception as observed by the flow's `catch` block: only its
`message` property is consumed (`error.message || "An unknown error occurred."`). -/
structure JsError where
  message : String
  deriving Repr, DecidableEq

/-- The settled outcome of a `fetch` call: a rejected promise (network
error), or a resolved `Response` with its `ok` flag, `status` code and
JSON-decoded body. -/
inductive FetchResult (β : Type) where
  | reject (message : String)
  | resolve (ok : Bool) (status : Nat) (body : β)
  deriving Repr, DecidableEq

/-! ## Data model -/

/-- The `current_weather` object of the weather provider's response. -/
structure CurrentWeather where
  temperature : ℚ
  weathercode : ℤ
  deriving Repr, DecidableEq

/-- The weather provider's response body: `{ current_weather: {...} }`. -/
structure WeatherResponseBody where
  current_weather : CurrentWeather
  deriving Repr, DecidableEq

/-- The normalized weather produced by `getWeatherData`:
`{ temperature, description }`. -/
structure WeatherReading where
  temperature : ℤ
  description : String
  deriving Repr, DecidableEq

/-- The `address` object of the reverse-geocoding response; `city` and `town`
are optional fields (`none` = absent). -/
structure GeoAddress where
  city : Option String
  town : Option String
  deriving Repr, DecidableEq

/-- The reverse-geocoding response body; the `address` object itself may be
absent, in which case reading `.city` from it throws a TypeError. -/
structure GeoResponseBody where
  address : Option GeoAddress
  deriving Repr, DecidableEq

/-- The fragrance recommendation parsed from the AI candidate text:
`{ mood, atmosphere, scents, reason }`. -/
structure FragranceRecommendation where
  mood : String
  atmosphere : String
  scents : String
  reason : String
  deriving Repr, DecidableEq

/-- The text of an AI candidate part, represented by what `JSON.parse` would
do with it: either it parses to a recommendation object, or `JSON.parse`
throws a SyntaxError with the given message. -/
inductive JsonText where
  | parsesTo (value : FragranceRecommendation)
  | malformed (parseErrorMessage : String)
  deriving Repr, DecidableEq

/-- `JSON.parse` applied to an AI candidate text. -/
def jsonParse (t : JsonText) : Except JsError FragranceRecommendation :=
  match t with
  | .parsesTo v => .ok v
  | .malformed msg => .error ⟨msg⟩

/-- One part of an AI candidate's content: `{ text: ... }`. -/
structure AIPart where
  text : JsonText
  deriving Repr, DecidableEq

/-- An AI candidate's `content` object: `{ parts: [...] }`. -/
structure AIContent where
  parts : List AIPart
  deriving Repr, DecidableEq

/-- One element of the AI response's `candidates` list; its `content` object
may be absent. -/
structure AICandidate where
  content : Option AIContent
  deriving Repr, DecidableEq

/-- The AI service's response body; the `candidates` list itself may be
absent (`none` = the field is missing, so `result.candidates` is falsy). -/
structure AIResponseBody where
  candidates : Option (List AICandidate)
  deriving Repr, DecidableEq

/-- The aggregate handed to `updateUI`:
`{ weather, fragrance, city }`. -/
structure FlowResult where
  city : String
  weather : WeatherReading
  fragrance : FragranceRecommendation
  deriving Repr, DecidableEq

/-! ## `getWeatherDescription` (WMO code lookup) -/

/-- The `descriptions` object literal of `getWeatherDescription`, as an
association list from weather code to description. -/
def descriptions : List (ℤ × String) :=
  [(0, "Clear sky"),
   (1, "Mainly clear"),
   (2, "Partly cloudy"),
   (3, "Overcast"),
   (45, "Fog"),
   (48, "Depositing rime fog"),
   (51, "Light drizzle"),
   (53, "Moderate drizzle"),
   (55, "Dense drizzle"),
   (56, "Light freezing drizzle"),
   (57, "Dense freezing drizzle"),
   (61, "Slight rain"),
   (63, "Moderate rain"),
   (65, "Heavy rain"),
   (66, "Light freezing rain"),
   (67, "Heavy freezing rain"),
   (71, "Slight snow fall"),
   (73, "Moderate snow fall"),
   (75, "Heavy snow fall"),
   (77, "Snow grains"),
   (80, "Slight rain showers"),
   (81, "Moderate rain showers"),
   (82, "Violent rain showers"),
   (85, "Slight snow showers"),
   (86, "Heavy snow showers"),
   (95, "Thunderstorm"),
   (96, "Thunderstorm with slight hail"),
   (99, "Thunderstorm with heavy hail")]

/-- `getWeatherDescription(code)`: `descriptions[code] || "Unknown weather"`. -/
def getWeatherDescription (code : ℤ) : String :=
  jsTruthyOr (descriptions.lookup code) "Unknown weather"

/-! ## HTTP clients -/

/-- `getWeatherData`: throws `'Could not fetch weather data.'` when the
response is not `ok`; otherwise rounds the temperature and maps the weather
code through `getWeatherDescription`. A rejected `fetch` propagates as the
rejection itself. -/
def getWeatherData (resp : FetchResult WeatherResponseBody) :
    Except JsError WeatherReading :=
  match resp with
  | .reject msg => .error ⟨msg⟩
  | .resolve ok _status body =>
    if !ok then
      .error ⟨"Could not fetch weather data."⟩
    else
      .ok { temperature := jsRound body.current_weather.temperature,
            description := getWeatherDescription body.current_weather.weathercode }

/-- `getCityName`: a non-`ok` response returns the fallback
`"your location"`; otherwise `data.address.city || data.address.town ||
"your location"`. A rejected `fetch` propagates, and a payload whose
`address` object is absent throws a TypeError (reading `.city` of
`undefined`). -/
def getCityName (resp : FetchResult GeoResponseBody) : Except JsError String :=
  match resp with
  | .reject msg => .error ⟨msg⟩
  | .resolve ok _status body =>
    if !ok then
      .ok "your location"
    else
      match body.address with
      | none => .error ⟨"Cannot read properties of undefined (reading 'city')"⟩
      | some addr => .ok (jsTruthyOr addr.city (jsTruthyOr addr.town "your location"))

/-- `getFragranceFromAI`: a non-`ok` response throws
`` `AI API request failed with status ${status}` ``; with an `ok` response,
`result.candidates && result.candidates.length > 0` guards the happy path
(`JSON.parse(result.candidates[0].content.parts[0].text)`, where a missing
`content` or empty `parts` throws a TypeError), and its falsity throws
`'Invalid response structure from AI API.'`. -/
def getFragranceFromAI (resp : FetchResult AIResponseBody) :
    Except JsError FragranceRecommendation :=
  match resp with
  | .reject msg => .error ⟨msg⟩
  | .resolve ok status body =>
    if !ok then
      .error ⟨"AI API request failed with status " ++ toString status⟩
    else
      match body.candidates with
      | some (c :: _) =>
        match c.content with
        | none => .error ⟨"Cannot read properties of undefined (reading 'parts')"⟩
        | some content =>
          match content.parts with
          | [] => .error ⟨"Cannot read properties of undefined (reading 'text')"⟩
          | p :: _ => jsonParse p.text
      | _ => .error ⟨"Invalid response structure from AI API."⟩

/-! ## UI state and update functions -/

/-- The DOM state the script mutates: visibility of the three panels
(`hidden` class absent), the trigger button's `disabled` flag, and the text
content of the message and result fields. -/
structure UIState where
  loadingVisible : Bool
  errorVisible : Bool
  resultsVisible : Bool
  btnDisabled : Bool
  loadingMessage : String
  errorMessage : String
  locationText : String
  weatherText : String
  fragranceText : String
  reasonText : String
  deriving Repr, DecidableEq

/-- `showLoading(message)`: set the loading text, show the loading panel,
hide results and error, disable the button. -/
def showLoading (message : String) (ui : UIState) : UIState :=
  { ui with
    loadingMessage := message,
    loadingVisible := true,
    resultsVisible := false,
    errorVisible := false,
    btnDisabled := true }

/-- `hideLoading()`: hide the loading panel, re-enable the button. -/
def hideLoading (ui : UIState) : UIState :=
  { ui with loadingVisible := false, btnDisabled := false }

/-- `showError(message)`: set the error text, show the error panel, then
`hideLoading()`. It does not touch the results panel. -/
def showError (message : String) (ui : UIState) : UIState :=
  hideLoading { ui with errorMessage := message, errorVisible := true }

/-- `updateUI(data)`: write the four result texts and show the results
panel. It does not touch the loading or error panels. -/
def updateUI (data : FlowResult) (ui : UIState) : UIState :=
  { ui with
    locationText := "Forecast for " ++ data.city,
    weatherText := data.weather.description ++ ", "
      ++ toString data.weather.temperature ++ "°C",
    fragranceText := data.fragrance.scents,
    reasonText := "Mood: " ++ data.fragrance.mood ++ ". " ++ data.fragrance.reason,
    resultsVisible := true }

/-! ## The click-handler flow -/

/-- The error code reported by the platform geolocation callback;
the handler only distinguishes `PERMISSION_DENIED` from the rest. -/
inductive GeoErrorCode where
  | permissionDenied
  | positionUnavailable
  | timeout
  deriving Repr, DecidableEq

/-- The outcome of `navigator.geolocation.getCurrentPosition`: the success
callback receives `position.coords`, the error callback an error code. -/
inductive GeoOutcome where
  | success (latitude longitude : ℚ)
  | failure (code : GeoErrorCode)
  deriving Repr, DecidableEq

/-- The environment of one click-handler run: whether
`navigator.geolocation` exists, how geolocation settles, and the settled
outcome of each of the three `fetch` calls. -/
structure Env where
  geolocationSupported : Bool
  geo : GeoOutcome
  weatherResp : FetchResult WeatherResponseBody
  geocodeResp : FetchResult GeoResponseBody
  aiResp : FetchResult AIResponseBody
  deriving Repr, DecidableEq

/-- How a run terminates: `updateUI` was reached (`done`) or `showError`
was reached (`errorShown`). -/
inductive FlowOutcome where
  | done
  | errorShown
  deriving Repr, DecidableEq

/-- `Promise.all([getWeatherData(...), getCityName(...)])`: succeeds with the
pair when both succeed, otherwise rejects with a failing promise's error.
(When both reject, the real `Promise.all` rejects with whichever settles
first; here the weather rejection is taken. No claim depends on that
tie-break.) -/
def promiseAllWeatherCity (w : Except JsError WeatherReading)
    (c : Except JsError String) : Except JsError (WeatherReading × String) :=
  match w with
  | .error e => .error e
  | .ok weather =>
    match c with
    | .error e => .error e
    | .ok city => .ok (weather, city)

/-- The flow's `catch (error)` handler message:
`error.message || "An unknown error occurred."`. -/
def catchMessage (e : JsError) : String :=
  if e.message = "" then "An unknown error occurred." else e.message

/-- The `getForecastBtn` click handler: the unsupported-geolocation guard,
the geolocation error callback (permission-denied vs generic message), and
the `try` block running `Promise.all([getWeatherData, getCityName])`, then
`getFragranceFromAI`, then `hideLoading(); updateUI(...)`, with the `catch`
showing `error.message || "An unknown error occurred."`. -/
def runFlow (env : Env) (ui : UIState) : FlowOutcome × UIState :=
  if !env.geolocationSupported then
    (.errorShown, showError "Geolocation is not supported by your browser." ui)
  else
    let ui1 := showLoading "Getting your location..." ui
    match env.geo with
    | .failure code =>
      let message :=
        if code = .permissionDenied then
          "Location access was denied. Please enable it in your browser settings."
        else
          "Could not get your location. Please allow location access."
      (.errorShown, showError message ui1)
    | .success _lat _lon =>
      let ui2 := showLoading "Fetching weather data..." ui1
      match promiseAllWeatherCity (getWeatherData env.weatherResp)
          (getCityName env.geocodeResp) with
      | .error e => (.errorShown, showError (catchMessage e) ui2)
      | .ok (weather, city) =>
        let ui3 := showLoading "Creating your fragrance profile..." ui2
        match getFragranceFromAI env.aiResp with
        | .error e => (.errorShown, showError (catchMessage e) ui3)
        | .ok fragrance =>
          let ui4 := hideLoading ui3
          (.done, updateUI { city := city, weather := weather, fragrance := fragrance } ui4)

/-- The page's initial UI state: all panels hidden (`hidden` class present
in the HTML), button enabled, all texts empty. -/
def initialUI : UIState :=
  { loadingVisible := false, errorVisible := false, resultsVisible := false,
    btnDisabled := false, loadingMessage := "", errorMessage := "",
    locationText := "", weatherText := "", fragranceText := "", reasonText := "" }

/-- At most one of the loading indicator, error panel and results panel is
visible. -/
def atMostOnePanel (ui : UIState) : Prop :=
  (if ui.loadingVisible then 1 else 0) + (if ui.errorVisible then 1 else 0)
    + (if ui.resultsVisible then 1 else 0) ≤ 1

instance (ui : UIState) : Decidable (atMostOnePanel ui) := by
  unfold atMostOnePanel; infer_instance

/-- One step of UI evolution: a full click-handler run, or a direct call to
one of the four UI-update functions. -/
inductive UIOp where
  | runClick (env : Env)
  | callShowLoading (message : String)
  | callShowError (message : String)
  | callUpdateUI (data : FlowResult)
  | callHideLoading

/-- Apply one `UIOp` to the UI state. -/
def applyOp (ui : UIState) (op : UIOp) : UIState :=
  match op with
  | .runClick env => (runFlow env ui).2
  | .callShowLoading message => showLoading message ui
  | .callShowError message => showError message ui
  | .callUpdateUI data => updateUI data ui
  | .callHideLoading => hideLoading ui

/-- Apply a sequence of `UIOp`s starting from a UI state. -/
def applyOps (ui : UIState) (ops : List UIOp) : UIState :=
  ops.foldl applyOp ui

/-- The UI state after a sequence of click-handler runs from the initial
page state. -/
def runFlows (envs : List Env) : UIState :=
  envs.foldl (fun ui env => (runFlow env ui).2) initialUI

/-! ## Helper lemmas -/

/-- Looking up a key absent from an association list yields `none`. -/
lemma lookup_eq_none_of_not_mem_keys (l : List (ℤ × String)) (c : ℤ)
    (h : c ∉ l.map Prod.fst) : l.lookup c = none := by
  induction l with
  | nil => rfl
  | cons kv t ih =>
    simp only [List.map_cons, List.mem_cons, not_or] at h
    have hbeq : (c == kv.1) = false := beq_eq_false_iff_ne.mpr h.1
    simp only [List.lookup, hbeq]
    exact ih h.2

/-- The fixed enumerated domain of WMO codes handled by
`getWeatherDescription` (the keys of `descriptions`). -/
def knownWmoCodes : List ℤ :=
  [0, 1, 2, 3, 45, 48, 51, 53, 55, 56, 57, 61, 63, 65, 66, 67,
   71, 73, 75, 77, 80, 81, 82, 85, 86, 95, 96, 99]

/-! ## Claim theorems -/

/-- C2: `getWeatherDescription` is a total function on integers: each of the
28 enumerated WMO codes maps to exactly its description string (stated as the
image of the whole domain list), and every code outside the enumerated
domain maps to the literal `"Unknown weather"`. The embedding is a pure
function, so there are no side effects. -/
theorem getWeatherDescription_total (c : ℤ) (h : c ∉ knownWmoCodes) :
    getWeatherDescription c = "Unknown weather" ∧
    knownWmoCodes.map getWeatherDescription =
      ["Clear sky", "Mainly clear", "Partly cloudy", "Overcast", "Fog",
       "Depositing rime fog", "Light drizzle", "Moderate drizzle",
       "Dense drizzle", "Light freezing drizzle", "Dense freezing drizzle",
       "Slight rain", "Moderate rain", "Heavy rain", "Light freezing rain",
       "Heavy freezing rain", "Slight snow fall", "Moderate snow fall",
       "Heavy snow fall", "Snow grains", "Slight rain showers",
       "Moderate rain showers", "Violent rain showers", "Slight snow showers",
       "Heavy snow showers", "Thunderstorm", "Thunderstorm with slight hail",
       "Thunderstorm with heavy hail"] := by
  constructor
  · have hkeys : knownWmoCodes = descriptions.map Prod.fst := by decide
    rw [hkeys] at h
    unfold getWeatherDescription
    rw [lookup_eq_none_of_not_mem_keys descriptions c h]
    rfl
  · decide

/-- Witness for C2 at the out-of-domain code 4. -/
theorem getWeatherDescription_total_witness :
    getWeatherDescription 4 = "Unknown weather" ∧
    knownWmoCodes.map getWeatherDescription =
      ["Clear sky", "Mainly clear", "Partly cloudy", "Overcast", "Fog",
       "Depositing rime fog", "Light drizzle", "Moderate drizzle",
       "Dense drizzle", "Light freezing drizzle", "Dense freezing drizzle",
       "Slight rain", "Moderate rain", "Heavy rain", "Light freezing rain",
       "Heavy freezing rain", "Slight snow fall", "Moderate snow fall",
       "Heavy snow fall", "Snow grains", "Slight rain showers",
       "Moderate rain showers", "Violent rain showers", "Slight snow showers",
       "Heavy snow showers", "Thunderstorm", "Thunderstorm with slight hail",
       "Thunderstorm with heavy hail"] :=
  getWeatherDescription_total 4 (by decide)

/-- C5: whenever `getWeatherData` succeeds on an `ok` response, the
temperature of the produced `WeatherReading` is `Math.round` of the raw
temperature, which is a nearest integer to the raw value (distance at most
1/2), for negative as well as positive raw values. -/
theorem getWeatherData_rounds_to_nearest (status : Nat)
    (body : WeatherResponseBody) (w : WeatherReading)
    (h : getWeatherData (.resolve true status body) = .ok w) :
    w.temperature = jsRound body.current_weather.temperature ∧
    |(w.temperature : ℚ) - body.current_weather.temperature| ≤ 1 / 2 := by
  simp only [getWeatherData, Bool.not_true, Bool.false_eq_true, if_false,
    Except.ok.injEq] at h
  subst h
  refine ⟨rfl, ?_⟩
  set q := body.current_weather.temperature with hq
  have h1 : ((⌊q + 1/2⌋ : ℤ) : ℚ) ≤ q + 1/2 := Int.floor_le (q + 1/2)
  have h2 : q + 1/2 < ((⌊q + 1/2⌋ : ℤ) : ℚ) + 1 := Int.lt_floor_add_one (q + 1/2)
  rw [abs_le]
  constructor <;> simp only [jsRound] <;> linarith

/-- Witness for C5: raw 14.6 rounds to 15 (and, directly, 14.4 rounds to 14
and -3.7 rounds to -4). -/
theorem getWeatherData_rounds_to_nearest_witness :
    ((15 : ℤ) = jsRound (146/10 : ℚ) ∧
      |((15 : ℤ) : ℚ) - (146/10 : ℚ)| ≤ 1 / 2) ∧
    jsRound (144/10 : ℚ) = 14 ∧ jsRound (-37/10 : ℚ) = -4 := by
  have h : getWeatherData (.resolve true 200 ⟨⟨146/10, 0⟩⟩) =
      .ok { temperature := 15, description := "Clear sky" } := by
    simp only [getWeatherData, Bool.not_true, Bool.false_eq_true, if_false,
      Except.ok.injEq, WeatherReading.mk.injEq]
    exact ⟨by norm_num [jsRound], rfl⟩
  have hmain := getWeatherData_rounds_to_nearest 200 ⟨⟨146/10, 0⟩⟩
    { temperature := 15, description := "Clear sky" } h
  exact ⟨⟨hmain.1, hmain.2⟩, by norm_num [jsRound], by norm_num [jsRound]⟩

/-- C9: on an `ok` geocode response whose payload has an `address` object,
`getCityName` gives `city` precedence over `town`: a present non-empty
`city` is returned; otherwise a present non-empty `town` is returned;
otherwise (both absent or empty — an empty string falls through exactly like
a missing field) the fallback `"your location"` is returned. -/
theorem getCityName_city_over_town (status : Nat) (addr : GeoAddress) :
    (∀ c, addr.city = some c → c ≠ "" →
      getCityName (.resolve true status ⟨some addr⟩) = .ok c) ∧
    ((addr.city = none ∨ addr.city = some "") → ∀ t, addr.town = some t → t ≠ "" →
      getCityName (.resolve true status ⟨some addr⟩) = .ok t) ∧
    ((addr.city = none ∨ addr.city = some "") →
      (addr.town = none ∨ addr.town = some "") →
      getCityName (.resolve true status ⟨some addr⟩) = .ok "your location") := by
  refine ⟨?_, ?_, ?_⟩
  · intro c hc hne
    simp [getCityName, jsTruthyOr, hc, hne]
  · intro hcity t ht htne
    rcases hcity with hc | hc <;>
      simp [getCityName, jsTruthyOr, hc, ht, htne]
  · intro hcity htown
    rcases hcity with hc | hc <;> rcases htown with ht | ht <;>
      simp [getCityName, jsTruthyOr, hc, ht]

/-- Witness for C9: city `"London"` wins over town `"Slough"`; an empty
city falls through to town `"Slough"`; empty city and absent town fall
through to the fallback. -/
theorem getCityName_city_over_town_witness :
    getCityName (.resolve true 200 ⟨some ⟨some "London", some "Slough"⟩⟩) = .ok "London" ∧
    getCityName (.resolve true 200 ⟨some ⟨some "", some "Slough"⟩⟩) = .ok "Slough" ∧
    getCityName (.resolve true 200 ⟨some ⟨some "", none⟩⟩) = .ok "your location" := by
  refine ⟨?_, ?_, ?_⟩
  · exact (getCityName_city_over_town 200 ⟨some "London", some "Slough"⟩).1
      "London" rfl (by decide)
  · exact (getCityName_city_over_town 200 ⟨some "", some "Slough"⟩).2.1
      (Or.inr rfl) "Slough" rfl (by decide)
  · exact (getCityName_city_over_town 200 ⟨some "", none⟩).2.2
      (Or.inr rfl) (Or.inl rfl)

/-- C10: the rendered result is independent of the `atmosphere` field of the
fragrance recommendation: replacing `atmosphere` by any string, with city
and weather unchanged, leaves the entire UI state produced by `updateUI`
unchanged. -/
theorem updateUI_independent_of_atmosphere (data : FlowResult) (a : String)
    (ui : UIState) :
    updateUI { data with
      fragrance := { data.fragrance with atmosphere := a } } ui = updateUI data ui := rfl

/-- C3: whenever the weather provider's HTTP response is not successful
(`ok = false`), `getWeatherData` fails with the weather-fetch error, the
run ends in `showError` (the `Error` state), the error panel is visible and
the results panel is not — for every geocode outcome (`env.geocodeResp` is
universally quantified). -/
theorem weather_http_failure_reaches_error (env : Env) (ui : UIState)
    (status : Nat) (body : WeatherResponseBody) (lat lon : ℚ)
    (hsup : env.geolocationSupported = true)
    (hgeo : env.geo = .success lat lon)
    (hw : env.weatherResp = .resolve false status body) :
    getWeatherData env.weatherResp = .error ⟨"Could not fetch weather data."⟩ ∧
    (runFlow env ui).1 = .errorShown ∧
    (runFlow env ui).2.errorVisible = true ∧
    (runFlow env ui).2.resultsVisible = false := by
  have hwd : getWeatherData env.weatherResp =
      .error ⟨"Could not fetch weather data."⟩ := by
    rw [hw]; rfl
  have hpa : promiseAllWeatherCity (getWeatherData env.weatherResp)
      (getCityName env.geocodeResp) =
      .error ⟨"Could not fetch weather data."⟩ := by
    rw [hwd]; rfl
  refine ⟨hwd, ?_, ?_, ?_⟩ <;>
    simp [runFlow, hsup, hgeo, hpa, catchMessage, showError, showLoading,
      hideLoading]

/-- Witness for C3 at a concrete environment whose weather fetch resolves
with a 500 status and whose geocode call succeeds with city "London". -/
theorem weather_http_failure_reaches_error_witness :
    getWeatherData (Env.mk true (.success 0 0)
        (.resolve false 500 ⟨⟨12, 61⟩⟩)
        (.resolve true 200 ⟨some ⟨some "London", none⟩⟩)
        (.reject "n/a")).weatherResp = .error ⟨"Could not fetch weather data."⟩ ∧
    (runFlow (Env.mk true (.success 0 0)
        (.resolve false 500 ⟨⟨12, 61⟩⟩)
        (.resolve true 200 ⟨some ⟨some "London", none⟩⟩)
        (.reject "n/a")) initialUI).1 = .errorShown ∧
    (runFlow (Env.mk true (.success 0 0)
        (.resolve false 500 ⟨⟨12, 61⟩⟩)
        (.resolve true 200 ⟨some ⟨some "London", none⟩⟩)
        (.reject "n/a")) initialUI).2.errorVisible = true ∧
    (runFlow (Env.mk true (.success 0 0)
        (.resolve false 500 ⟨⟨12, 61⟩⟩)
        (.resolve true 200 ⟨some ⟨some "London", none⟩⟩)
        (.reject "n/a")) initialUI).2.resultsVisible = false :=
  weather_http_failure_reaches_error _ initialUI 500 ⟨⟨12, 61⟩⟩ 0 0 rfl rfl rfl

/-- Environment whose host lacks `navigator.geolocation`. -/
def unsupportedEnv : Env :=
  ⟨false, .failure .timeout, .reject "n/a", .reject "n/a", .reject "n/a"⟩

/-- Environment whose geolocation callback reports `PERMISSION_DENIED`. -/
def deniedEnv : Env :=
  ⟨true, .failure .permissionDenied, .reject "n/a", .reject "n/a", .reject "n/a"⟩

/-- Environment whose geolocation callback reports a non-permission error. -/
def genericGeoFailEnv : Env :=
  ⟨true, .failure .timeout, .reject "n/a", .reject "n/a", .reject "n/a"⟩

/-- C7: absent geolocation capability shows its own unsupported message; a
permission-denied callback shows the denied message; any other callback
error shows the generic message; and the three user-visible messages are
pairwise distinct. -/
theorem geolocation_error_messages_distinct (env₁ env₂ env₃ : Env)
    (ui : UIState) (code : GeoErrorCode)
    (h1 : env₁.geolocationSupported = false)
    (h2s : env₂.geolocationSupported = true)
    (h2 : env₂.geo = .failure .permissionDenied)
    (h3s : env₃.geolocationSupported = true)
    (hcode : code ≠ .permissionDenied)
    (h3 : env₃.geo = .failure code) :
    ((runFlow env₁ ui).2.errorVisible = true ∧
      (runFlow env₁ ui).2.errorMessage =
        "Geolocation is not supported by your browser.") ∧
    ((runFlow env₂ ui).2.errorVisible = true ∧
      (runFlow env₂ ui).2.errorMessage =
        "Location access was denied. Please enable it in your browser settings.") ∧
    ((runFlow env₃ ui).2.errorVisible = true ∧
      (runFlow env₃ ui).2.errorMessage =
        "Could not get your location. Please allow location access.") ∧
    (runFlow env₁ ui).2.errorMessage ≠ (runFlow env₂ ui).2.errorMessage ∧
    (runFlow env₁ ui).2.errorMessage ≠ (runFlow env₃ ui).2.errorMessage ∧
    (runFlow env₂ ui).2.errorMessage ≠ (runFlow env₃ ui).2.errorMessage := by
  have e1 : (runFlow env₁ ui).2.errorVisible = true ∧
      (runFlow env₁ ui).2.errorMessage =
        "Geolocation is not supported by your browser." := by
    constructor <;> simp [runFlow, h1, showError, hideLoading]
  have e2 : (runFlow env₂ ui).2.errorVisible = true ∧
      (runFlow env₂ ui).2.errorMessage =
        "Location access was denied. Please enable it in your browser settings." := by
    constructor <;> simp [runFlow, h2s, h2, showError, showLoading, hideLoading]
  have e3 : (runFlow env₃ ui).2.errorVisible = true ∧
      (runFlow env₃ ui).2.errorMessage =
        "Could not get your location. Please allow location access." := by
    constructor <;> simp [runFlow, h3s, h3, hcode, showError, showLoading,
      hideLoading]
  refine ⟨e1, e2, e3, ?_, ?_, ?_⟩ <;> simp only [e1.2, e2.2, e3.2] <;> decide

/-- Witness for C7 on three concrete environments (unsupported host,
permission denied, geolocation timeout). -/
theorem geolocation_error_messages_distinct_witness :
    (runFlow unsupportedEnv initialUI).2.errorMessage ≠
      (runFlow deniedEnv initialUI).2.errorMessage ∧
    (runFlow unsupportedEnv initialUI).2.errorMessage ≠
      (runFlow genericGeoFailEnv initialUI).2.errorMessage ∧
    (runFlow deniedEnv initialUI).2.errorMessage ≠
      (runFlow genericGeoFailEnv initialUI).2.errorMessage := by
  have h := geolocation_error_messages_distinct unsupportedEnv deniedEnv
    genericGeoFailEnv initialUI .timeout rfl rfl rfl rfl (by decide) rfl
  exact ⟨h.2.2.2.1, h.2.2.2.2.1, h.2.2.2.2.2⟩

/-- The fragrance recommendation of the spec's end-to-end scenario. -/
def sampleRecommendation : FragranceRecommendation :=
  ⟨"Cozy", "Rainy afternoon", "Amber & Vanilla", "Warm scents suit rain."⟩

/-- An AI response body whose single candidate's text parses to
`sampleRecommendation`. -/
def sampleAIBody : AIResponseBody :=
  ⟨some [⟨some ⟨[⟨.parsesTo sampleRecommendation⟩]⟩⟩]⟩

/-- Environment where weather and AI succeed but the geocode `fetch`
itself rejects (network error). -/
def geocodeNetworkFailEnv : Env :=
  { geolocationSupported := true,
    geo := .success 51 0,
    weatherResp := .resolve true 200 ⟨⟨12, 61⟩⟩,
    geocodeResp := .reject "Failed to fetch",
    aiResp := .resolve true 200 sampleAIBody }

/-- C1 counterexample: with weather and AI succeeding, a geocode `fetch`
rejection (network error) is NOT absorbed: `getCityName`'s promise rejects,
`Promise.all` rejects with it, and the run ends in `showError` with the
network error surfaced — the flow does not reach `Done`. -/
theorem geocode_network_error_not_absorbed :
    (∃ w, getWeatherData geocodeNetworkFailEnv.weatherResp = .ok w) ∧
    (∃ f, getFragranceFromAI geocodeNetworkFailEnv.aiResp = .ok f) ∧
    getCityName geocodeNetworkFailEnv.geocodeResp = .error ⟨"Failed to fetch"⟩ ∧
    (runFlow geocodeNetworkFailEnv initialUI).1 = .errorShown ∧
    (runFlow geocodeNetworkFailEnv initialUI).1 ≠ .done ∧
    (runFlow geocodeNetworkFailEnv initialUI).2.errorVisible = true ∧
    (runFlow geocodeNetworkFailEnv initialUI).2.errorMessage = "Failed to fetch" := by
  refine ⟨⟨_, rfl⟩, ⟨_, rfl⟩, rfl, rfl, ?_, rfl, rfl⟩
  rw [show (runFlow geocodeNetworkFailEnv initialUI).1 = FlowOutcome.errorShown
    from rfl]
  decide

/-- C1 (amended): when weather and fragrance succeed, a geocode failure is
absorbed and the flow still reaches `Done` with city `"your location"`
provided the failure is a non-2xx HTTP status, or a payload whose `address`
object is present but whose `city` and `town` fields are absent or empty.
(A rejected geocode `fetch` — a network error — or a payload without an
`address` object instead propagates as an error; see the counterexample.) -/
theorem geocode_soft_failures_absorbed (env : Env) (ui : UIState)
    (lat lon : ℚ) (w : WeatherReading) (f : FragranceRecommendation)
    (hsup : env.geolocationSupported = true)
    (hgeo : env.geo = .success lat lon)
    (hw : getWeatherData env.weatherResp = .ok w)
    (hf : getFragranceFromAI env.aiResp = .ok f)
    (hgc : (∃ status body, env.geocodeResp = .resolve false status body) ∨
      (∃ status addr, env.geocodeResp = .resolve true status ⟨some addr⟩ ∧
        (addr.city = none ∨ addr.city = some "") ∧
        (addr.town = none ∨ addr.town = some ""))) :
    (runFlow env ui).1 = .done ∧
    (runFlow env ui).2.resultsVisible = true ∧
    (runFlow env ui).2.errorVisible = false ∧
    (runFlow env ui).2.locationText = "Forecast for your location" := by
  have hcity : getCityName env.geocodeResp = .ok "your location" := by
    rcases hgc with ⟨status, body, hb⟩ | ⟨status, addr, hb, hc, ht⟩
    · rw [hb]; rfl
    · rw [hb]
      rcases hc with hc | hc <;> rcases ht with ht | ht <;>
        simp [getCityName, jsTruthyOr, hc, ht]
  have hpa : promiseAllWeatherCity (getWeatherData env.weatherResp)
      (getCityName env.geocodeResp) = .ok (w, "your location") := by
    rw [hw, hcity]; rfl
  refine ⟨?_, ?_, ?_, ?_⟩ <;>
    simp [runFlow, hsup, hgeo, hpa, hf, updateUI, hideLoading, showLoading]

/-- Environment whose geocode call resolves with a 404 status. -/
def geocode404Env : Env :=
  { geolocationSupported := true,
    geo := .success 51 0,
    weatherResp := .resolve true 200 ⟨⟨12, 61⟩⟩,
    geocodeResp := .resolve false 404 ⟨none⟩,
    aiResp := .resolve true 200 sampleAIBody }

/-- Witness for the amended C1: a 404 geocode response is absorbed and the
flow reaches `Done` with the fallback city. -/
theorem geocode_soft_failures_absorbed_witness :
    (runFlow geocode404Env initialUI).1 = .done ∧
    (runFlow geocode404Env initialUI).2.locationText =
      "Forecast for your location" := by
  have h := geocode_soft_failures_absorbed geocode404Env initialUI 51 0
    ⟨jsRound 12, getWeatherDescription 61⟩ sampleRecommendation
    rfl rfl rfl rfl (Or.inl ⟨404, ⟨none⟩, rfl⟩)
  exact ⟨h.1, h.2.2.2⟩

/-- C4 counterexample: an `ok` AI response with a nonempty candidates list
whose first candidate has no `content` object lacks the expected
candidate/content structure, yet `getFragranceFromAI` fails with a generic
TypeError whose message is not the `'Invalid response structure from AI
API.'` shape-error message. -/
theorem ai_missing_content_is_type_error :
    getFragranceFromAI (.resolve true 200 ⟨some [⟨none⟩]⟩) =
      .error ⟨"Cannot read properties of undefined (reading 'parts')"⟩ ∧
    ("Cannot read properties of undefined (reading 'parts')" : String) ≠
      "Invalid response structure from AI API." :=
  ⟨rfl, by decide⟩

/-- C4 (amended): `getFragranceFromAI` fails with the request error whose
message carries the HTTP status code whenever the response is not `ok`, and
fails with the `'Invalid response structure from AI API.'` shape error
exactly for the absent-or-empty candidates list; a candidate that is present
but lacks the `content` structure instead fails with a generic TypeError
(see the counterexample). -/
theorem getFragranceFromAI_error_classes (status : Nat) (body : AIResponseBody) :
    (getFragranceFromAI (.resolve false status body) =
      .error ⟨"AI API request failed with status " ++ toString status⟩) ∧
    ((body.candidates = none ∨ body.candidates = some []) →
      getFragranceFromAI (.resolve true status body) =
        .error ⟨"Invalid response structure from AI API."⟩) := by
  constructor
  · rfl
  · intro h
    rcases h with h | h <;> simp [getFragranceFromAI, h]

/-- Witness for the amended C4: status 500 yields the request-error message
carrying 500; an empty candidates list yields the shape-error message. -/
theorem getFragranceFromAI_error_classes_witness :
    getFragranceFromAI (.resolve false 500 ⟨none⟩) =
      .error ⟨"AI API request failed with status " ++ toString 500⟩ ∧
    getFragranceFromAI (.resolve true 200 ⟨some []⟩) =
      .error ⟨"Invalid response structure from AI API."⟩ :=
  ⟨(getFragranceFromAI_error_classes 500 ⟨none⟩).1,
   (getFragranceFromAI_error_classes 200 ⟨some []⟩).2 (Or.inr rfl)⟩

/-- The spec's end-to-end scenario: coordinates (51.5, -0.12), weather code
61 at raw temperature 12.3, city "London", and the sample AI reply. -/
def londonEnv : Env :=
  { geolocationSupported := true,
    geo := .success (515/10) (-(12/100)),
    weatherResp := .resolve true 200 ⟨⟨123/10, 61⟩⟩,
    geocodeResp := .resolve true 200 ⟨some ⟨some "London", none⟩⟩,
    aiResp := .resolve true 200 sampleAIBody }

/-- C6: on the end-to-end scenario the flow reaches `Done` and renders
location "Forecast for London", weather "Slight rain, 12°C", fragrance
recommendation "Amber & Vanilla" and reason "Mood: Cozy. Warm scents suit
rain.". -/
theorem end_to_end_london :
    (runFlow londonEnv initialUI).1 = .done ∧
    (runFlow londonEnv initialUI).2.locationText = "Forecast for London" ∧
    (runFlow londonEnv initialUI).2.weatherText = "Slight rain, 12°C" ∧
    (runFlow londonEnv initialUI).2.fragranceText = "Amber & Vanilla" ∧
    (runFlow londonEnv initialUI).2.reasonText =
      "Mood: Cozy. Warm scents suit rain." := by
  have hsup : londonEnv.geolocationSupported = true := rfl
  have hgeo : londonEnv.geo = .success (515/10) (-(12/100)) := rfl
  have hw : getWeatherData londonEnv.weatherResp = .ok ⟨12, "Slight rain"⟩ := by
    simp only [londonEnv, getWeatherData, Bool.not_true, Bool.false_eq_true,
      if_false, Except.ok.injEq, WeatherReading.mk.injEq]
    exact ⟨by norm_num [jsRound], rfl⟩
  have hpa : promiseAllWeatherCity (getWeatherData londonEnv.weatherResp)
      (getCityName londonEnv.geocodeResp) =
      .ok (⟨12, "Slight rain"⟩, "London") := by
    rw [hw]; rfl
  have hf : getFragranceFromAI londonEnv.aiResp = .ok sampleRecommendation := rfl
  refine ⟨?_, ?_, ?_, ?_, ?_⟩ <;>
    simp [runFlow, hsup, hgeo, hpa, hf, updateUI, hideLoading, showLoading,
      sampleRecommendation] <;>
    decide

/-- A concrete `FlowResult` used to exercise `updateUI` directly. -/
def sampleFlowResult : FlowResult :=
  ⟨"London", ⟨12, "Slight rain"⟩, sampleRecommendation⟩

/-- C8 counterexample: the UI-update calls `updateUI` then `showError`
leave the results panel and the error panel visible at the same time
(`showError` never hides the results panel). -/
theorem updateUI_then_showError_two_panels :
    (applyOps initialUI
      [.callUpdateUI sampleFlowResult, .callShowError "Boom"]).errorVisible = true ∧
    (applyOps initialUI
      [.callUpdateUI sampleFlowResult, .callShowError "Boom"]).resultsVisible = true ∧
    ¬ atMostOnePanel (applyOps initialUI
      [.callUpdateUI sampleFlowResult, .callShowError "Boom"]) :=
  ⟨rfl, rfl, by decide⟩

/-- Any single click-handler run on a host with geolocation support leaves
at most one panel visible, whatever the starting UI state: every error path
passes through `showLoading`, which hides both other panels. -/
lemma runFlow_panel_invariant (env : Env) (ui : UIState)
    (hsup : env.geolocationSupported = true) :
    atMostOnePanel (runFlow env ui).2 := by
  unfold runFlow
  rw [hsup]
  cases hgeo : env.geo with
  | failure code =>
    simp [atMostOnePanel, showError, showLoading, hideLoading]
  | success lat lon =>
    cases hpa : promiseAllWeatherCity (getWeatherData env.weatherResp)
        (getCityName env.geocodeResp) with
    | error e =>
      simp [hpa, atMostOnePanel, showError, showLoading, hideLoading]
    | ok pair =>
      obtain ⟨w, city⟩ := pair
      cases hf : getFragranceFromAI env.aiResp with
      | error e =>
        simp [hpa, hf, atMostOnePanel, showError, showLoading, hideLoading]
      | ok f =>
        simp [hpa, hf, atMostOnePanel, updateUI, hideLoading, showLoading]

/-- The panel invariant survives any foldl of supported click-handler runs. -/
lemma foldl_runFlow_panel_invariant (envs : List Env) (ui : UIState)
    (hui : atMostOnePanel ui)
    (hsup : ∀ env ∈ envs, env.geolocationSupported = true) :
    atMostOnePanel (envs.foldl (fun s env => (runFlow env s).2) ui) := by
  induction envs generalizing ui with
  | nil => simpa using hui
  | cons e t ih =>
    simp only [List.foldl_cons]
    exact ih ((runFlow e ui).2)
      (runFlow_panel_invariant e ui (hsup e (List.mem_cons_self e t)))
      (fun x hx => hsup x (List.mem_cons_of_mem e hx))

/-- C8 (amended): after any sequence of click-handler runs from the initial
page state, on a host where geolocation is supported throughout, at most one
of the loading indicator, the error panel and the results panel is visible.
(The claim as stated — closure under arbitrary direct UI-update calls, or
under runs that may hit the unsupported-geolocation guard after a successful
run — fails: `showError` does not hide the results panel; see the
counterexample.) -/
theorem flows_panel_invariant (envs : List Env)
    (hsup : ∀ env ∈ envs, env.geolocationSupported = true) :
    atMostOnePanel (runFlows envs) :=
  foldl_runFlow_panel_invariant envs initialUI (by decide) hsup

/-- Witness for the amended C8 on two concrete supported runs. -/
theorem flows_panel_invariant_witness :
    atMostOnePanel (runFlows [deniedEnv, genericGeoFailEnv]) :=
  flows_panel_invariant [deniedEnv, genericGeoFailEnv] (by decide)

end FragranceForecast
